import Mathlib

/-!
Verification of the smart-parking backend lot service: the lot occupancy
aggregator, the occupancy prediction engine, its recommendation generator,
and the HTTP-layer horizon validation.

The embedding follows the TypeScript source. JavaScript numbers are modelled
as rationals, `Math.round x` as Mathlib `round x = ⌊x + 1/2⌋` (both round
half toward positive infinity), epoch times as integer milliseconds, the
local timezone as an integer offset in minutes, and `Math.random()` as an
abstract stream `rand : ℕ → ℚ` of values in `[0, 1)` indexed by loop
iteration.
-/

/-- Status of an individual parking space (`ParkingSpace.status` in the types
module): one of available, occupied, reserved, offline. -/
inductive SpaceStatus
  | available
  | occupied
  | reserved
  | offline
deriving DecidableEq, Repr

/-- A parking-space record; the aggregator reads only `status`. -/
structure ParkingSpace where
  nodeId : String
  lotId : String
  status : SpaceStatus
deriving DecidableEq, Repr

/-- A parking-lot record: the fields the lot service reads and writes. -/
structure ParkingLot where
  lotId : String
  totalSpaces : ℕ
  availableSpaces : ℕ
  occupiedSpaces : ℕ
  offlineSpaces : ℕ
  occupancyRate : ℚ
deriving DecidableEq, Repr

/-- Lot occupancy aggregation, from `LotService.getLotById` (and identically
`LotService.getAllLots`): counts spaces by status, takes
`spaces.length || lot.totalSpaces` as the total (JavaScript `||`, so an empty
list falls back to the static capacity), and computes
`Math.round((occupied / total) * 100 * 100) / 100` when the total is
positive, else `0`. -/
def aggregate (lot : ParkingLot) (spaces : List ParkingSpace) : ParkingLot :=
  let availableSpaces := (spaces.filter (fun s => s.status = SpaceStatus.available)).length
  let occupiedSpaces := (spaces.filter (fun s => s.status = SpaceStatus.occupied)).length
  let offlineSpaces := (spaces.filter (fun s => s.status = SpaceStatus.offline)).length
  let totalSpaces := if spaces.length = 0 then lot.totalSpaces else spaces.length
  { lot with
    totalSpaces := totalSpaces
    availableSpaces := availableSpaces
    occupiedSpaces := occupiedSpaces
    offlineSpaces := offlineSpaces
    occupancyRate :=
      if 0 < totalSpaces then
        (round (((occupiedSpaces : ℚ) / (totalSpaces : ℚ)) * 100 * 100) : ℚ) / 100
      else 0 }

/-- Milliseconds per hour, the `i * 60 * 60 * 1000` step of the prediction
loop. -/
def msPerHour : ℤ := 3600000

/-- JavaScript `Date.prototype.getHours` for an epoch time `ms`, with the
local timezone given as an offset `tz` in minutes: the local hour in
`[0, 24)`. -/
def getHoursAt (tz ms : ℤ) : ℤ :=
  ((ms.ediv 60000 + tz).ediv 60).emod 24

/-- JavaScript `Date.prototype.getMinutes`: the local minute component in
`[0, 60)`. -/
def getMinutesAt (tz ms : ℤ) : ℤ :=
  (ms.ediv 60000 + tz).emod 60

/-- JavaScript `Date.prototype.getDay`: 0 = Sunday .. 6 = Saturday (the epoch
began on a Thursday, index 4). -/
def getDayAt (tz ms : ℤ) : ℤ :=
  ((ms + tz * 60000).ediv 86400000 + 4).emod 7

/-- The time-of-day bias of `LotService.getPrediction`: busier during
9-11 and 14-16 local time (capped at 95), quieter during 17-19 (floored
at 20), otherwise the current rate unchanged. -/
def basePrediction (rate : ℚ) (hour : ℤ) : ℚ :=
  if 9 ≤ hour ∧ hour ≤ 11 then min 95 (rate + 15)
  else if 14 ≤ hour ∧ hour ≤ 16 then min 95 (rate + 20)
  else if 17 ≤ hour ∧ hour ≤ 19 then max 20 (rate - 15)
  else rate

/-- Trend classification of a prediction point. -/
inductive Trend
  | INCREASING
  | DECREASING
  | STABLE
deriving DecidableEq, Repr

/-- One entry of the prediction series. -/
structure PredPoint where
  timestampMs : ℤ
  predictedOccupancy : ℚ
  predictedAvailable : ℤ
  confidence : ℚ
  trend : Trend
deriving DecidableEq, Repr

/-- The clamped, pre-rounding predicted occupancy of loop iteration `i` of
`LotService.getPrediction`: base rate plus time-of-day bias plus the variance
`(Math.random() - 0.5) * 10`, clamped to `[0, 100]`. -/
def predictedOccRaw (lot : ParkingLot) (tz nowMs : ℤ) (rand : ℕ → ℚ) (i : ℕ) : ℚ :=
  let t := nowMs + (i : ℤ) * msPerHour
  let hour := getHoursAt tz t
  let base := basePrediction lot.occupancyRate hour
  let variance := (rand i - 1/2) * 10
  max 0 (min 100 (base + variance))

/-- The prediction point pushed at loop iteration `i` of
`LotService.getPrediction`, given the points `preds` accumulated so far:
timestamp `now + i` hours, occupancy rounded to one decimal, available count
derived from the unrounded occupancy, confidence `0.85 - i * 0.05`, and trend
against the last accumulated point (STABLE when there is none). -/
def mkPredPoint (lot : ParkingLot) (tz nowMs : ℤ) (rand : ℕ → ℚ) (i : ℕ)
    (preds : List PredPoint) : PredPoint :=
  let occ := predictedOccRaw lot tz nowMs rand i
  let trend : Trend :=
    match preds.getLast? with
    | none => Trend.STABLE
    | some lastP =>
      if occ > lastP.predictedOccupancy + 3 then Trend.INCREASING
      else if occ < lastP.predictedOccupancy - 3 then Trend.DECREASING
      else Trend.STABLE
  { timestampMs := nowMs + (i : ℤ) * msPerHour
    predictedOccupancy := (round (occ * 10) : ℚ) / 10
    predictedAvailable := round ((lot.totalSpaces : ℚ) * (1 - occ / 100))
    confidence := (85 : ℚ) / 100 - (i : ℚ) * (5 / 100)
    trend := trend }

/-- The prediction loop of `LotService.getPrediction`: iterations
`i = 1 .. hours`, each pushing one point computed against the series built so
far. -/
def genPredictions (lot : ParkingLot) (tz nowMs : ℤ) (rand : ℕ → ℚ) : ℕ → List PredPoint
  | 0 => []
  | n + 1 =>
    let prev := genPredictions lot tz nowMs rand n
    prev ++ [mkPredPoint lot tz nowMs rand (n + 1) prev]

/-- The point at zero-based position `j` of any sufficiently long generated
series (see `genPredictions_getElem`). -/
def nthPredPoint (lot : ParkingLot) (tz nowMs : ℤ) (rand : ℕ → ℚ) (j : ℕ) : PredPoint :=
  mkPredPoint lot tz nowMs rand (j + 1) (genPredictions lot tz nowMs rand j)

/-- JavaScript `minutes.toString().padStart(2, "0")`. -/
def pad2 (n : ℤ) : String :=
  if n < 10 then "0" ++ toString n else toString n

/-- The peak-time formatting of `LotService.generateRecommendation`:
`hours > 12 ? hours - 12 : hours`, the padded minutes, and `AM` when the hour
is below 12. -/
def timeStr (tz ms : ℤ) : String :=
  let hours := getHoursAt tz ms
  let minutes := getMinutesAt tz ms
  toString (if hours > 12 then hours - 12 else hours) ++ ":" ++ pad2 minutes ++
    (if hours ≥ 12 then " PM" else " AM")

/-- JavaScript `predictions.reduce((max, p) => p.predictedOccupancy >
max.predictedOccupancy ? p : max, init)`. -/
def peakOf (init : PredPoint) (ps : List PredPoint) : PredPoint :=
  ps.foldl (fun mx p => if p.predictedOccupancy > mx.predictedOccupancy then p else mx) init

/-- `LotService.generateRecommendation`: reduce the series to its peak
(initial accumulator `predictions[0]`, so the fold revisits the head
harmlessly), then pick one of three messages. The service only ever passes a
non-empty series (the horizon is at least 1); on `[]` the JavaScript original
would throw, modelled here as the empty string. -/
def generateRecommendation (tz : ℤ) (predictions : List PredPoint) (lot : ParkingLot) : String :=
  match predictions with
  | [] => ""
  | p0 :: _ =>
    let peakPrediction := peakOf p0 predictions
    if peakPrediction.predictedOccupancy > 85 then
      "High demand expected around " ++ timeStr tz peakPrediction.timestampMs ++
        ". Consider arriving earlier for better availability."
    else if lot.availableSpaces < 10 then
      "Limited spaces available now. Consider alternative lots if possible."
    else
      "Good availability expected. No concerns at this time."

/-- The result shape of `LotService.getPrediction` (timestamps as epoch
milliseconds; the unused special-events and weather placeholders omitted). -/
structure OccupancyPrediction where
  lotId : String
  currentOccupancy : ℚ
  currentAvailable : ℕ
  predictions : List PredPoint
  confidence : ℚ
  generatedAtMs : ℤ
  dayOfWeek : String
  timeOfDay : String
  recommendation : String
deriving Repr

/-- Day names indexed by `getDay`. -/
def dayNames : List String :=
  ["Sunday", "Monday", "Tuesday", "Wednesday", "Thursday", "Friday", "Saturday"]

/-- The pure core of `LotService.getPrediction` once the lot has been
fetched: the series, the constant top-level confidence `0.85`, the contextual
factors, and the recommendation. -/
def getPredictionCore (lot : ParkingLot) (tz nowMs : ℤ) (rand : ℕ → ℚ)
    (hours : ℕ) : OccupancyPrediction :=
  let predictions := genPredictions lot tz nowMs rand hours
  let nowHour := getHoursAt tz nowMs
  { lotId := lot.lotId
    currentOccupancy := lot.occupancyRate
    currentAvailable := lot.availableSpaces
    predictions := predictions
    confidence := (85 : ℚ) / 100
    generatedAtMs := nowMs
    dayOfWeek := (dayNames.get? (getDayAt tz nowMs).toNat).getD ""
    timeOfDay := if nowHour < 12 then "Morning" else if nowHour < 17 then "Afternoon" else "Evening"
    recommendation := generateRecommendation tz predictions lot }

/-- Outcome of the prediction route handler in the lots router: either a 400
validation error, or the engine invoked with the given horizon. -/
inductive PredictionRouteOutcome
  | badRequest
  | engine (hours : ℤ)
deriving DecidableEq, Repr

/-- JavaScript `parseInt(req.query.hours as string) || 3`: the query
modelled as `none` when absent or non-numeric (`parseInt` gives NaN, which is
falsy) and `some n` for an integer value; `0` is falsy too, so it also falls
back to 3. -/
def parsedHours (q : Option ℤ) : ℤ :=
  match q with
  | none => 3
  | some n => if n = 0 then 3 else n

/-- The `GET /lots/:lotId/prediction` handler up to the horizon validation:
reject with 400 when the parsed horizon is below 1 or above 12, otherwise
invoke the prediction engine with it. -/
def predictionRoute (q : Option ℤ) : PredictionRouteOutcome :=
  let hours := parsedHours q
  if hours < 1 ∨ hours > 12 then PredictionRouteOutcome.badRequest
  else PredictionRouteOutcome.engine hours

/-- A concrete lot for witnesses: `lot-1` of the mock data. -/
def lotA : ParkingLot :=
  { lotId := "lot-1", totalSpaces := 150, availableSpaces := 42,
    occupiedSpaces := 103, offlineSpaces := 5, occupancyRate := 687/10 }

/-- A concrete lot at 50 percent occupancy. -/
def lotB : ParkingLot :=
  { lotId := "lot-b", totalSpaces := 100, availableSpaces := 50,
    occupiedSpaces := 50, offlineSpaces := 0, occupancyRate := 50 }

/-- A single reserved space of `lot-1`. -/
def reservedSpace : ParkingSpace :=
  { nodeId := "node-1", lotId := "lot-1", status := SpaceStatus.reserved }

/-! ## Aggregator lemmas -/

theorem aggregate_availableSpaces (lot : ParkingLot) (spaces : List ParkingSpace) :
    (aggregate lot spaces).availableSpaces =
      spaces.countP (fun s => s.status = SpaceStatus.available) := by
  simp [aggregate, List.countP_eq_length_filter]

theorem aggregate_occupiedSpaces (lot : ParkingLot) (spaces : List ParkingSpace) :
    (aggregate lot spaces).occupiedSpaces =
      spaces.countP (fun s => s.status = SpaceStatus.occupied) := by
  simp [aggregate, List.countP_eq_length_filter]

theorem aggregate_offlineSpaces (lot : ParkingLot) (spaces : List ParkingSpace) :
    (aggregate lot spaces).offlineSpaces =
      spaces.countP (fun s => s.status = SpaceStatus.offline) := by
  simp [aggregate, List.countP_eq_length_filter]

theorem aggregate_totalSpaces (lot : ParkingLot) (spaces : List ParkingSpace) :
    (aggregate lot spaces).totalSpaces =
      if spaces = [] then lot.totalSpaces else spaces.length := by
  simp [aggregate, List.length_eq_zero]

theorem aggregate_occupancyRate (lot : ParkingLot) (spaces : List ParkingSpace) :
    (aggregate lot spaces).occupancyRate =
      if (aggregate lot spaces).totalSpaces = 0 then 0
      else (round ((((aggregate lot spaces).occupiedSpaces : ℚ) /
              ((aggregate lot spaces).totalSpaces : ℚ)) * 100 * 100) : ℚ) / 100 := by
  simp only [aggregate]
  split <;> split <;> (try split) <;> first | rfl | omega

/-- The four statuses partition any space list. -/
theorem status_count_partition (spaces : List ParkingSpace) :
    spaces.countP (fun s => s.status = SpaceStatus.available) +
      spaces.countP (fun s => s.status = SpaceStatus.occupied) +
      spaces.countP (fun s => s.status = SpaceStatus.offline) +
      spaces.countP (fun s => s.status = SpaceStatus.reserved) =
    spaces.length := by
  induction spaces with
  | nil => simp
  | cons s rest ih =>
    rcases hs : s.status <;>
      simp [List.countP_cons, hs] <;> omega

/-! ## C1 and C2: the aggregator -/

/-- C2: aggregation returns availableSpaces, occupiedSpaces and offlineSpaces
as the counts of spaces with the corresponding status, totalSpaces as the
length of the space list when it is non-empty and the static capacity
otherwise, and occupancyRate as occupied over total times 100 rounded to two
decimals, or 0 when the total is zero. -/
theorem C2_aggregate_fields (lot : ParkingLot) (spaces : List ParkingSpace) :
    (aggregate lot spaces).availableSpaces =
        spaces.countP (fun s => s.status = SpaceStatus.available) ∧
    (aggregate lot spaces).occupiedSpaces =
        spaces.countP (fun s => s.status = SpaceStatus.occupied) ∧
    (aggregate lot spaces).offlineSpaces =
        spaces.countP (fun s => s.status = SpaceStatus.offline) ∧
    (aggregate lot spaces).totalSpaces =
        (if spaces = [] then lot.totalSpaces else spaces.length) ∧
    (aggregate lot spaces).occupancyRate =
        (if (aggregate lot spaces).totalSpaces = 0 then 0
         else (round ((((aggregate lot spaces).occupiedSpaces : ℚ) /
                 ((aggregate lot spaces).totalSpaces : ℚ) * 100) * 100) : ℚ) / 100) :=
  ⟨aggregate_availableSpaces lot spaces, aggregate_occupiedSpaces lot spaces,
   aggregate_offlineSpaces lot spaces, aggregate_totalSpaces lot spaces,
   by rw [aggregate_occupancyRate lot spaces]⟩

/-- C1 counterexample: the invariant availableSpaces + occupiedSpaces +
offlineSpaces = totalSpaces fails both on an empty space list (counts are all
zero while totalSpaces falls back to the static capacity 150) and on a list
holding one reserved space (reserved spaces are counted in the length but in
none of the three tallies). -/
theorem C1_counterexample :
    ((aggregate lotA []).availableSpaces + (aggregate lotA []).occupiedSpaces +
        (aggregate lotA []).offlineSpaces ≠ (aggregate lotA []).totalSpaces) ∧
    ((aggregate lotA [reservedSpace]).availableSpaces +
        (aggregate lotA [reservedSpace]).occupiedSpaces +
        (aggregate lotA [reservedSpace]).offlineSpaces ≠
          (aggregate lotA [reservedSpace]).totalSpaces) := by
  decide

/-- C1 amended: for every lot and every non-empty list of space records, the
aggregated lot satisfies availableSpaces + occupiedSpaces + offlineSpaces +
(number of reserved spaces) = totalSpaces; the three reported tallies alone
fall short of totalSpaces exactly by the reserved count, and on an empty list
they are all zero while totalSpaces is the static capacity. -/
theorem C1_amended (lot : ParkingLot) (spaces : List ParkingSpace)
    (hne : spaces ≠ []) :
    (aggregate lot spaces).availableSpaces + (aggregate lot spaces).occupiedSpaces +
      (aggregate lot spaces).offlineSpaces +
      spaces.countP (fun s => s.status = SpaceStatus.reserved) =
    (aggregate lot spaces).totalSpaces := by
  rw [aggregate_availableSpaces, aggregate_occupiedSpaces, aggregate_offlineSpaces,
    aggregate_totalSpaces, if_neg hne]
  exact status_count_partition spaces

/-- C1 amended, checked at a concrete input: one reserved space of lot-1. -/
theorem C1_amended_witness :
    [reservedSpace] ≠ ([] : List ParkingSpace) ∧
    (aggregate lotA [reservedSpace]).availableSpaces +
        (aggregate lotA [reservedSpace]).occupiedSpaces +
        (aggregate lotA [reservedSpace]).offlineSpaces +
        [reservedSpace].countP (fun s => s.status = SpaceStatus.reserved) =
      (aggregate lotA [reservedSpace]).totalSpaces :=
  ⟨by decide, C1_amended lotA [reservedSpace] (by decide)⟩

/-! ## Series structure lemmas -/

theorem genPredictions_length (lot : ParkingLot) (tz nowMs : ℤ) (rand : ℕ → ℚ) :
    ∀ h, (genPredictions lot tz nowMs rand h).length = h := by
  intro h
  induction h with
  | zero => rfl
  | succ n ih => simp [genPredictions, ih]

theorem genPredictions_getElem (lot : ParkingLot) (tz nowMs : ℤ) (rand : ℕ → ℚ) :
    ∀ h j, j < h →
      (genPredictions lot tz nowMs rand h)[j]? =
        some (nthPredPoint lot tz nowMs rand j) := by
  intro h
  induction h with
  | zero => intro j hj; omega
  | succ n ih =>
    intro j hj
    show (genPredictions lot tz nowMs rand n ++
        [mkPredPoint lot tz nowMs rand (n + 1) (genPredictions lot tz nowMs rand n)])[j]? = _
    rcases Nat.lt_or_ge j n with hlt | hge
    · rw [List.getElem?_append_left (by rw [genPredictions_length]; exact hlt)]
      exact ih j hlt
    · have hj_eq : j = n := by omega
      subst hj_eq
      rw [List.getElem?_append_right (by rw [genPredictions_length])]
      simp [genPredictions_length, nthPredPoint]

theorem genPredictions_getLast (lot : ParkingLot) (tz nowMs : ℤ) (rand : ℕ → ℚ) (n : ℕ) :
    (genPredictions lot tz nowMs rand (n + 1)).getLast? =
      some (nthPredPoint lot tz nowMs rand n) := by
  show (genPredictions lot tz nowMs rand n ++
      [mkPredPoint lot tz nowMs rand (n + 1) (genPredictions lot tz nowMs rand n)]).getLast? = _
  rw [List.getLast?_concat]
  rfl

theorem nthPredPoint_timestamp (lot : ParkingLot) (tz nowMs : ℤ) (rand : ℕ → ℚ) (j : ℕ) :
    (nthPredPoint lot tz nowMs rand j).timestampMs = nowMs + ((j + 1 : ℕ) : ℤ) * msPerHour :=
  rfl

theorem nthPredPoint_confidence (lot : ParkingLot) (tz nowMs : ℤ) (rand : ℕ → ℚ) (j : ℕ) :
    (nthPredPoint lot tz nowMs rand j).confidence =
      (85 : ℚ) / 100 - ((j + 1 : ℕ) : ℚ) * (5 / 100) :=
  rfl

theorem nthPredPoint_occupancy (lot : ParkingLot) (tz nowMs : ℤ) (rand : ℕ → ℚ) (j : ℕ) :
    (nthPredPoint lot tz nowMs rand j).predictedOccupancy =
      (round (predictedOccRaw lot tz nowMs rand (j + 1) * 10) : ℚ) / 10 :=
  rfl

theorem nthPredPoint_available (lot : ParkingLot) (tz nowMs : ℤ) (rand : ℕ → ℚ) (j : ℕ) :
    (nthPredPoint lot tz nowMs rand j).predictedAvailable =
      round ((lot.totalSpaces : ℚ) * (1 - predictedOccRaw lot tz nowMs rand (j + 1) / 100)) :=
  rfl

/-! ## C9, C7, C8, C10 -/

/-- C9: for every lot and horizon h in [1,12], the generated prediction
series has exactly h data points. -/
theorem C9_series_length (lot : ParkingLot) (tz nowMs : ℤ) (rand : ℕ → ℚ)
    (h : ℕ) (h1 : 1 ≤ h) (h12 : h ≤ 12) :
    (genPredictions lot tz nowMs rand h).length = h :=
  genPredictions_length lot tz nowMs rand h

/-- C9, checked at a concrete input: horizon 3 for lot-1. -/
theorem C9_series_length_witness :
    (1 : ℕ) ≤ 3 ∧ (3 : ℕ) ≤ 12 ∧
    (genPredictions lotA 0 0 (fun _ => 1/2) 3).length = 3 :=
  ⟨by decide, by decide,
   C9_series_length lotA 0 0 (fun _ => 1/2) 3 (by decide) (by decide)⟩

/-- C7 counterexample: generating at 00:23 UTC (epoch 1380000 ms, timezone
offset 0), the first prediction point's timestamp has local minute component
23, not a whole-hour boundary. -/
theorem C7_counterexample :
    ((genPredictions lotB 0 1380000 (fun _ => 1/2) 1)[0]?).map
        (fun p => getMinutesAt 0 p.timestampMs) = some 23 ∧
    (23 : ℤ) ≠ 0 := by
  constructor
  · rw [genPredictions_getElem lotB 0 1380000 (fun _ => 1/2) 1 0 (by decide)]
    simp [nthPredPoint_timestamp]
    decide
  · decide

/-- C7 amended: the i-th prediction point's timestamp is exactly the
generation time plus i hours (3600000 ms per hour) — hourly spacing with the
generation instant's minute and second components carried along, a whole-hour
boundary only when generation itself happens on the hour. -/
theorem C7_amended (lot : ParkingLot) (tz nowMs : ℤ) (rand : ℕ → ℚ)
    (h j : ℕ) (hj : j < h) :
    (genPredictions lot tz nowMs rand h)[j]? =
        some (nthPredPoint lot tz nowMs rand j) ∧
    (nthPredPoint lot tz nowMs rand j).timestampMs =
        nowMs + ((j + 1 : ℕ) : ℤ) * msPerHour :=
  ⟨genPredictions_getElem lot tz nowMs rand h j hj,
   nthPredPoint_timestamp lot tz nowMs rand j⟩

/-- C7 amended, checked at a concrete input: the first point of a horizon-1
series generated at epoch 1380000 ms. -/
theorem C7_amended_witness :
    (genPredictions lotB 0 1380000 (fun _ => 1/2) 1)[0]? =
        some (nthPredPoint lotB 0 1380000 (fun _ => 1/2) 0) ∧
    (nthPredPoint lotB 0 1380000 (fun _ => 1/2) 0).timestampMs =
        1380000 + ((0 + 1 : ℕ) : ℤ) * msPerHour :=
  C7_amended lotB 0 1380000 (fun _ => 1/2) 1 0 (by decide)

/-- C8: the point at zero-based position j (one-based i = j + 1) of a series
of horizon h in [1,12] has confidence exactly 0.85 - 0.05 * (j + 1), and
adjacent points differ by exactly 0.05, confidence strictly decreasing with
no floor applied. -/
theorem C8_confidence (lot : ParkingLot) (tz nowMs : ℤ) (rand : ℕ → ℚ)
    (h j : ℕ) (h1 : 1 ≤ h) (h12 : h ≤ 12) (hj : j < h) :
    (genPredictions lot tz nowMs rand h)[j]? =
        some (nthPredPoint lot tz nowMs rand j) ∧
    (nthPredPoint lot tz nowMs rand j).confidence =
        (85 : ℚ) / 100 - ((j + 1 : ℕ) : ℚ) * (5 / 100) ∧
    (nthPredPoint lot tz nowMs rand j).confidence -
        (nthPredPoint lot tz nowMs rand (j + 1)).confidence = 5 / 100 := by
  refine ⟨genPredictions_getElem lot tz nowMs rand h j hj,
    nthPredPoint_confidence lot tz nowMs rand j, ?_⟩
  rw [nthPredPoint_confidence, nthPredPoint_confidence]
  push_cast
  ring

/-- C8, checked at a concrete input: the first point of a horizon-2 series
has confidence 0.80 and exceeds the second point's by 0.05. -/
theorem C8_confidence_witness :
    (genPredictions lotA 0 0 (fun _ => 1/2) 2)[0]? =
        some (nthPredPoint lotA 0 0 (fun _ => 1/2) 0) ∧
    (nthPredPoint lotA 0 0 (fun _ => 1/2) 0).confidence =
        (85 : ℚ) / 100 - ((0 + 1 : ℕ) : ℚ) * (5 / 100) ∧
    (nthPredPoint lotA 0 0 (fun _ => 1/2) 0).confidence -
        (nthPredPoint lotA 0 0 (fun _ => 1/2) 1).confidence = 5 / 100 :=
  C8_confidence lotA 0 0 (fun _ => 1/2) 2 0 (by decide) (by decide) (by decide)

/-- C10: the top-level confidence field of the prediction result is the
constant 0.85, whatever the lot, timezone, generation time, random stream and
horizon are. -/
theorem C10_top_confidence (lot : ParkingLot) (tz nowMs : ℤ) (rand : ℕ → ℚ)
    (hours : ℕ) :
    (getPredictionCore lot tz nowMs rand hours).confidence = (85 : ℚ) / 100 :=
  rfl

/-! ## C3: per-point occupancy and available-count formula -/

/-- C3: assuming the random stream stays in [0,1) as `Math.random` does, the
point at zero-based position j (one-based hour i = j + 1) of a series of
horizon h in [1,12] carries an occupancy that is the one-decimal rounding of
the clamp to [0,100] of the biased base rate plus some variance v in [-5,5],
where the base applies the time-of-day bands of the source to the local hour
of now + (j+1) hours; its available count is derived from the same clamped
pre-rounding occupancy as round(totalSpaces * (1 - occ / 100)). -/
theorem C3_point_formula (lot : ParkingLot) (tz nowMs : ℤ) (rand : ℕ → ℚ)
    (h j : ℕ) (hrand : ∀ n, 0 ≤ rand n ∧ rand n < 1)
    (h1 : 1 ≤ h) (h12 : h ≤ 12) (hj : j < h) :
    (genPredictions lot tz nowMs rand h)[j]? =
        some (nthPredPoint lot tz nowMs rand j) ∧
    ∃ v occ : ℚ, -5 ≤ v ∧ v ≤ 5 ∧
      occ = max 0 (min 100 (basePrediction lot.occupancyRate
          (getHoursAt tz (nowMs + ((j + 1 : ℕ) : ℤ) * msPerHour)) + v)) ∧
      (nthPredPoint lot tz nowMs rand j).predictedOccupancy =
        (round (occ * 10) : ℚ) / 10 ∧
      (nthPredPoint lot tz nowMs rand j).predictedAvailable =
        round ((lot.totalSpaces : ℚ) * (1 - occ / 100)) := by
  refine ⟨genPredictions_getElem lot tz nowMs rand h j hj,
    (rand (j + 1) - 1/2) * 10, predictedOccRaw lot tz nowMs rand (j + 1),
    ?_, ?_, rfl, nthPredPoint_occupancy lot tz nowMs rand j,
    nthPredPoint_available lot tz nowMs rand j⟩
  · have := (hrand (j + 1)).1
    linarith
  · have := (hrand (j + 1)).2
    linarith

/-- C3, checked at a concrete input: the single point of a horizon-1 series
for lot-1 under the constant random stream 1/2. -/
theorem C3_point_formula_witness :
    (genPredictions lotA 0 0 (fun _ => 1/2) 1)[0]? =
        some (nthPredPoint lotA 0 0 (fun _ => 1/2) 0) ∧
    ∃ v occ : ℚ, -5 ≤ v ∧ v ≤ 5 ∧
      occ = max 0 (min 100 (basePrediction lotA.occupancyRate
          (getHoursAt 0 (0 + ((0 + 1 : ℕ) : ℤ) * msPerHour)) + v)) ∧
      (nthPredPoint lotA 0 0 (fun _ => 1/2) 0).predictedOccupancy =
        (round (occ * 10) : ℚ) / 10 ∧
      (nthPredPoint lotA 0 0 (fun _ => 1/2) 0).predictedAvailable =
        round ((lotA.totalSpaces : ℚ) * (1 - occ / 100)) :=
  C3_point_formula lotA 0 0 (fun _ => 1/2) 1 0
    (fun _ => ⟨by norm_num, by norm_num⟩) (by decide) (by decide) (by decide)

/-! ## C4: trend classification -/

theorem nthPredPoint_trend_zero (lot : ParkingLot) (tz nowMs : ℤ) (rand : ℕ → ℚ) :
    (nthPredPoint lot tz nowMs rand 0).trend = Trend.STABLE :=
  rfl

theorem nthPredPoint_trend_succ (lot : ParkingLot) (tz nowMs : ℤ) (rand : ℕ → ℚ) (j : ℕ) :
    (nthPredPoint lot tz nowMs rand (j + 1)).trend =
      (if predictedOccRaw lot tz nowMs rand (j + 2) >
          (nthPredPoint lot tz nowMs rand j).predictedOccupancy + 3 then Trend.INCREASING
       else if predictedOccRaw lot tz nowMs rand (j + 2) <
          (nthPredPoint lot tz nowMs rand j).predictedOccupancy - 3 then Trend.DECREASING
       else Trend.STABLE) := by
  show (mkPredPoint lot tz nowMs rand (j + 2) (genPredictions lot tz nowMs rand (j + 1))).trend = _
  simp only [mkPredPoint, genPredictions_getLast]

/-- C4 counterexample stream: iteration 2 draws 0.804, all others 0.5, so the
second raw occupancy is 53.04 while both stored occupancies round to 53.0 and
50.0. -/
def randC4 : ℕ → ℚ := fun j => if j = 2 then 201/250 else 1/2

/-- C4 counterexample: at 50 percent occupancy with variance +3.04 on the
second hour, the code classifies the second point INCREASING (it compares the
unrounded 53.04 against the stored 50.0 plus 3), yet the stored occupancies
differ by exactly 3, which the claim says must be STABLE. -/
theorem C4_counterexample :
    ((genPredictions lotB 0 0 randC4 2)[1]?).map PredPoint.trend =
        some Trend.INCREASING ∧
    ((genPredictions lotB 0 0 randC4 2)[1]?).map PredPoint.predictedOccupancy =
        some 53 ∧
    ((genPredictions lotB 0 0 randC4 2)[0]?).map PredPoint.predictedOccupancy =
        some 50 ∧
    ¬((53 : ℚ) - 50 > 3) := by
  have e1 : predictedOccRaw lotB 0 0 randC4 1 = 50 := by
    have hh : getHoursAt 0 (0 + ((1 : ℕ) : ℤ) * msPerHour) = 1 := by decide
    simp only [predictedOccRaw]
    rw [hh]
    simp [basePrediction, randC4, lotB]
    norm_num [min_def, max_def]
  have e2 : predictedOccRaw lotB 0 0 randC4 2 = 1326 / 25 := by
    have hh : getHoursAt 0 (0 + ((2 : ℕ) : ℤ) * msPerHour) = 2 := by decide
    simp only [predictedOccRaw]
    rw [hh]
    simp [basePrediction, randC4, lotB]
    norm_num [min_def, max_def]
  have s0 : (nthPredPoint lotB 0 0 randC4 0).predictedOccupancy = 50 := by
    rw [nthPredPoint_occupancy]
    norm_num [e1, round_eq]
  have s1 : (nthPredPoint lotB 0 0 randC4 1).predictedOccupancy = 53 := by
    rw [nthPredPoint_occupancy]
    norm_num [e2, round_eq]
  have t1 := nthPredPoint_trend_succ lotB 0 0 randC4 0
  norm_num [e2, s0] at t1
  refine ⟨?_, ?_, ?_, by norm_num⟩
  · rw [genPredictions_getElem lotB 0 0 randC4 2 1 (by decide)]
    simp [t1]
  · rw [genPredictions_getElem lotB 0 0 randC4 2 1 (by decide)]
    simp [s1]
  · rw [genPredictions_getElem lotB 0 0 randC4 2 0 (by decide)]
    simp [s0]

/-- C4 amended: the engine's trend comparison uses the current point's
unrounded clamped occupancy against the previous point's stored (one-decimal
rounded) occupancy: for every point after the first, the trend is INCREASING
iff rawOcc exceeds the predecessor's stored occupancy by more than 3,
DECREASING iff it falls below it by more than 3, else STABLE; the first
point's trend is always STABLE. -/
theorem C4_amended (lot : ParkingLot) (tz nowMs : ℤ) (rand : ℕ → ℚ)
    (h j : ℕ) (hj1 : j + 1 < h) :
    (genPredictions lot tz nowMs rand h)[j]? =
        some (nthPredPoint lot tz nowMs rand j) ∧
    (genPredictions lot tz nowMs rand h)[j + 1]? =
        some (nthPredPoint lot tz nowMs rand (j + 1)) ∧
    ((genPredictions lot tz nowMs rand h)[0]?).map PredPoint.trend =
        some Trend.STABLE ∧
    (nthPredPoint lot tz nowMs rand (j + 1)).trend =
      (if predictedOccRaw lot tz nowMs rand (j + 2) >
          (nthPredPoint lot tz nowMs rand j).predictedOccupancy + 3 then Trend.INCREASING
       else if predictedOccRaw lot tz nowMs rand (j + 2) <
          (nthPredPoint lot tz nowMs rand j).predictedOccupancy - 3 then Trend.DECREASING
       else Trend.STABLE) := by
  refine ⟨genPredictions_getElem lot tz nowMs rand h j (by omega),
    genPredictions_getElem lot tz nowMs rand h (j + 1) hj1, ?_,
    nthPredPoint_trend_succ lot tz nowMs rand j⟩
  rw [genPredictions_getElem lot tz nowMs rand h 0 (by omega)]
  rfl

/-- C4 amended, checked at a concrete input: the second point of a horizon-2
series. -/
theorem C4_amended_witness :
    (genPredictions lotB 0 0 randC4 2)[0]? =
        some (nthPredPoint lotB 0 0 randC4 0) ∧
    (genPredictions lotB 0 0 randC4 2)[0 + 1]? =
        some (nthPredPoint lotB 0 0 randC4 (0 + 1)) ∧
    ((genPredictions lotB 0 0 randC4 2)[0]?).map PredPoint.trend =
        some Trend.STABLE ∧
    (nthPredPoint lotB 0 0 randC4 (0 + 1)).trend =
      (if predictedOccRaw lotB 0 0 randC4 (0 + 2) >
          (nthPredPoint lotB 0 0 randC4 0).predictedOccupancy + 3 then Trend.INCREASING
       else if predictedOccRaw lotB 0 0 randC4 (0 + 2) <
          (nthPredPoint lotB 0 0 randC4 0).predictedOccupancy - 3 then Trend.DECREASING
       else Trend.STABLE) :=
  C4_amended lotB 0 0 randC4 2 0 (by decide)

/-! ## C5: recommendation generation -/

theorem peakOf_cons (b p : PredPoint) (l : List PredPoint) :
    peakOf b (p :: l) =
      peakOf (if p.predictedOccupancy > b.predictedOccupancy then p else b) l :=
  rfl

/-- The strict-comparison fold keeps the first element attaining the maximum:
the result dominates the seed and every list element, and equals either the
seed or the first element strictly dominating the seed and everything before
it. -/
theorem peakOf_first_max :
    ∀ (l : List PredPoint) (b : PredPoint),
      b.predictedOccupancy ≤ (peakOf b l).predictedOccupancy ∧
      (∀ y ∈ l, y.predictedOccupancy ≤ (peakOf b l).predictedOccupancy) ∧
      (peakOf b l = b ∨
        ∃ pre x post, l = pre ++ x :: post ∧ peakOf b l = x ∧
          b.predictedOccupancy < x.predictedOccupancy ∧
          ∀ y ∈ pre, y.predictedOccupancy < x.predictedOccupancy) := by
  intro l
  induction l with
  | nil => exact fun b => ⟨le_refl _, by simp, Or.inl rfl⟩
  | cons p l ih =>
    intro b
    rw [peakOf_cons]
    by_cases hpb : p.predictedOccupancy > b.predictedOccupancy
    · rw [if_pos hpb]
      obtain ⟨ih1, ih2, ih3⟩ := ih p
      refine ⟨le_of_lt (lt_of_lt_of_le hpb ih1), ?_, Or.inr ?_⟩
      · intro y hy
        rcases List.mem_cons.mp hy with hy | hy
        · exact hy ▸ ih1
        · exact ih2 y hy
      · rcases ih3 with heq | ⟨pre, x, post, hl, hx, hpx, hpre⟩
        · exact ⟨[], p, l, rfl, heq, hpb, by simp⟩
        · refine ⟨p :: pre, x, post, by rw [hl]; rfl, hx, lt_trans hpb hpx, ?_⟩
          intro y hy
          rcases List.mem_cons.mp hy with hy | hy
          · exact hy ▸ hpx
          · exact hpre y hy
    · rw [if_neg hpb]
      push_neg at hpb
      obtain ⟨ih1, ih2, ih3⟩ := ih b
      refine ⟨ih1, ?_, ?_⟩
      · intro y hy
        rcases List.mem_cons.mp hy with hy | hy
        · exact hy ▸ le_trans hpb ih1
        · exact ih2 y hy
      · rcases ih3 with heq | ⟨pre, x, post, hl, hx, hbx, hpre⟩
        · exact Or.inl heq
        · refine Or.inr ⟨p :: pre, x, post, by rw [hl]; rfl, hx, hbx, ?_⟩
          intro y hy
          rcases List.mem_cons.mp hy with hy | hy
          · exact hy ▸ lt_of_le_of_lt hpb hbx
          · exact hpre y hy

theorem generateRecommendation_cons (tz : ℤ) (p0 : PredPoint)
    (rest : List PredPoint) (lot : ParkingLot) :
    generateRecommendation tz (p0 :: rest) lot =
      (if (peakOf p0 (p0 :: rest)).predictedOccupancy > 85 then
        "High demand expected around " ++
            timeStr tz (peakOf p0 (p0 :: rest)).timestampMs ++
          ". Consider arriving earlier for better availability."
       else if lot.availableSpaces < 10 then
        "Limited spaces available now. Consider alternative lots if possible."
       else "Good availability expected. No concerns at this time.") :=
  rfl

theorem peakOf_self_cons (p0 : PredPoint) (rest : List PredPoint) :
    peakOf p0 (p0 :: rest) = peakOf p0 rest := by
  rw [peakOf_cons, if_neg (lt_irrefl _)]

/-- A prediction point peaking at 90 percent occupancy at local midnight. -/
def peakPt : PredPoint :=
  { timestampMs := 0, predictedOccupancy := 90, predictedAvailable := 10,
    confidence := 8/10, trend := Trend.STABLE }

/-- C5 counterexample: a series peaking above 85 at local midnight. A proper
12-hour clock writes midnight as 12:00 AM, but the formatter computes
`hours > 12 ? hours - 12 : hours`, leaving hour 0 as 0, so the produced high
demand message says 0:00 AM instead of the claimed 12-hour rendering. -/
theorem C5_counterexample :
    generateRecommendation 0 [peakPt] lotB =
      "High demand expected around 0:00 AM. Consider arriving earlier for better availability." ∧
    generateRecommendation 0 [peakPt] lotB ≠
      "High demand expected around 12:00 AM. Consider arriving earlier for better availability." := by
  constructor
  · rfl
  · intro hcontra
    have : ("High demand expected around 0:00 AM. Consider arriving earlier for better availability." : String) =
        "High demand expected around 12:00 AM. Consider arriving earlier for better availability." := by
      rw [← hcontra]
      rfl
    simp at this

/-- C5 amended: for every non-empty series the recommendation is computed
from the first point attaining the maximal predicted occupancy (the
existential below pins the peak as a member dominating the whole series and
strictly dominating every earlier point): if its occupancy exceeds 85 the
message is the high-demand text around its timestamp formatted as
`{hours > 12 ? hours - 12 : hours}:{mm} {AM/PM}` (midnight renders as hour 0,
not 12); else if the lot has fewer than 10 available spaces, the
limited-spaces text; else the good-availability text. -/
theorem C5_amended (tz : ℤ) (lot : ParkingLot) (p0 : PredPoint)
    (rest : List PredPoint) :
    ∃ pre x post,
      p0 :: rest = pre ++ x :: post ∧
      (∀ y ∈ p0 :: rest, y.predictedOccupancy ≤ x.predictedOccupancy) ∧
      (∀ y ∈ pre, y.predictedOccupancy < x.predictedOccupancy) ∧
      generateRecommendation tz (p0 :: rest) lot =
        (if x.predictedOccupancy > 85 then
          "High demand expected around " ++ timeStr tz x.timestampMs ++
            ". Consider arriving earlier for better availability."
         else if lot.availableSpaces < 10 then
          "Limited spaces available now. Consider alternative lots if possible."
         else "Good availability expected. No concerns at this time.") := by
  obtain ⟨h1, h2, h3⟩ := peakOf_first_max rest p0
  rcases h3 with heq | ⟨pre, x, post, hl, hx, hpx, hpre⟩
  · refine ⟨[], p0, rest, rfl, ?_, by simp, ?_⟩
    · intro y hy
      rcases List.mem_cons.mp hy with hy | hy
      · exact hy ▸ le_refl _
      · exact le_of_le_of_eq (h2 y hy) (by rw [heq])
    · rw [generateRecommendation_cons, peakOf_self_cons, heq]
  · refine ⟨p0 :: pre, x, post, by rw [hl]; rfl, ?_, ?_, ?_⟩
    · intro y hy
      rcases List.mem_cons.mp hy with hy | hy
      · exact hy ▸ le_of_lt hpx
      · exact le_of_le_of_eq (h2 y hy) (by rw [hx])
    · intro y hy
      rcases List.mem_cons.mp hy with hy | hy
      · exact hy ▸ hpx
      · exact hpre y hy
    · rw [generateRecommendation_cons, peakOf_self_cons, hx]

/-! ## C6: horizon validation in the prediction route -/

/-- C6 counterexample: the integer 0 lies outside [1,12], yet
`parseInt(...) || 3` treats it as falsy, so the handler silently substitutes
the default horizon 3 and invokes the engine instead of responding 400. -/
theorem C6_counterexample :
    predictionRoute (some 0) = PredictionRouteOutcome.engine 3 ∧
    predictionRoute (some 0) ≠ PredictionRouteOutcome.badRequest := by
  decide

/-- C6 amended: every nonzero integer outside [1,12] is rejected with a 400
before the engine runs; an absent hours parameter defaults the horizon to 3;
the integer 0, although outside [1,12], is swallowed by the falsy fallback of
`parseInt(...) || 3` and likewise runs the engine with the default horizon
3. -/
theorem C6_amended (n : ℤ) (hn0 : n ≠ 0) (hout : n < 1 ∨ n > 12) :
    predictionRoute (some n) = PredictionRouteOutcome.badRequest ∧
    predictionRoute none = PredictionRouteOutcome.engine 3 ∧
    predictionRoute (some 0) = PredictionRouteOutcome.engine 3 := by
  refine ⟨?_, rfl, rfl⟩
  simp only [predictionRoute, parsedHours, if_neg hn0]
  rw [if_pos hout]

/-- C6 amended, checked at a concrete input: hours = 13. -/
theorem C6_amended_witness :
    predictionRoute (some 13) = PredictionRouteOutcome.badRequest ∧
    predictionRoute none = PredictionRouteOutcome.engine 3 ∧
    predictionRoute (some 0) = PredictionRouteOutcome.engine 3 :=
  C6_amended 13 (by decide) (by decide)
